import Mathlib

/-!
# ThinkPad Compact Keyboard driver (`drivers/hid/hid-lenovo-tpcompactkbd.c`)

A shallow embedding of the driver's five functions

* `tpcompactkbd_send_cmd`
* `tpcompactkbd_toggle_fnlock`
* `tpcompactkbd_input_mapping`
* `tpcompactkbd_event`
* `tpcompactkbd_probe`

Machine integers are natural numbers (`unsigned`) or integers (`int`, `__s32`).
Calls into the HID core (`hid_hw_raw_request`, `hid_map_usage_clear`, `hid_parse`,
`hid_hw_start`, `hid_err`, `hid_warn`) are recorded in the device state, so that the
order and the number of the calls can be stated.
-/

namespace TpCompactKbd

/-! ## Constants of `include/linux/hid.h` and `include/uapi/linux/input.h` -/

/-- Modelled from the spec: the mask `HID_USAGE_PAGE` of `include/linux/hid.h` (not part of the
driver file) selects the usage page, the upper 16 bits of a 32-bit usage. -/
def HID_USAGE_PAGE : Nat := 0xffff0000

/-- Modelled from the spec: the mask `HID_USAGE` of `include/linux/hid.h` (not part of the
driver file) selects the usage id, the lower 16 bits of a 32-bit usage. -/
def HID_USAGE : Nat := 0x0000ffff

/-- Modelled from the spec: the consumer usage page `HID_UP_CONSUMER` of `include/linux/hid.h`. -/
def HID_UP_CONSUMER : Nat := 0x000c0000

/-- Modelled from the spec: the vendor usage page `HID_UP_MSVENDOR` of `include/linux/hid.h`. -/
def HID_UP_MSVENDOR : Nat := 0xff000000

/-- Modelled from the spec: the errno `ENOMEM` of `include/uapi/asm-generic/errno-base.h`. -/
def ENOMEM : Int := 12

/-- The event types and key codes of `include/uapi/linux/input.h` the driver names.  The header
is not part of the driver file, so the codes are parameters of the model: every statement holds
for whatever values the header gives them. -/
structure input_codes where
  EV_KEY : Nat
  EV_REP : Nat
  KEY_CONFIG : Nat
  KEY_SEARCH : Nat
  KEY_BRIGHTNESSDOWN : Nat
  KEY_BRIGHTNESSUP : Nat
  KEY_SWITCHVIDEOMODE : Nat
  KEY_MICMUTE : Nat
  KEY_FN_ESC : Nat
  KEY_FN_F8 : Nat
  KEY_FN_F11 : Nat
  KEY_FN_F12 : Nat
  deriving DecidableEq, Repr

/-- The values the codes have in `include/uapi/linux/input.h`, used for concrete runs. -/
def linux_input_codes : input_codes where
  EV_KEY := 0x01
  EV_REP := 0x14
  KEY_CONFIG := 171
  KEY_SEARCH := 217
  KEY_BRIGHTNESSDOWN := 224
  KEY_BRIGHTNESSUP := 225
  KEY_SWITCHVIDEOMODE := 227
  KEY_MICMUTE := 248
  KEY_FN_ESC := 0x1d1
  KEY_FN_F8 := 0x1d9
  KEY_FN_F11 := 0x1dc
  KEY_FN_F12 := 0x1dd

/-- Report types of `include/linux/hid.h` (`HID_INPUT_REPORT` = 0, ...). -/
inductive hid_report_type where
  | HID_INPUT_REPORT
  | HID_OUTPUT_REPORT
  | HID_FEATURE_REPORT
  deriving DecidableEq, Repr

/-- Class requests of `include/linux/hid.h` (`enum hid_class_request`). -/
inductive hid_class_request where
  | HID_REQ_GET_REPORT
  | HID_REQ_GET_IDLE
  | HID_REQ_GET_PROTOCOL
  | HID_REQ_SET_REPORT
  | HID_REQ_SET_IDLE
  | HID_REQ_SET_PROTOCOL
  deriving DecidableEq, Repr

/-! ## Data model -/

/-- The driver's per-device data: `struct tpcompactkbd_sc { unsigned int fn_lock; }`. -/
structure tpcompactkbd_sc where
  fn_lock : Nat
  deriving DecidableEq, Repr

/-- One call of `hid_hw_raw_request(hdev, reportnum, buf, len, rtype, reqtype)`. -/
structure raw_request where
  reportnum : Nat
  buf : List Nat
  len : Nat
  rtype : hid_report_type
  reqtype : hid_class_request
  deriving DecidableEq, Repr

/-- Severity of a kernel log line (`hid_err`, `hid_warn`). -/
inductive log_level where
  | err
  | warn
  deriving DecidableEq, Repr

/-- The part of `struct hid_device` and of its surroundings the driver touches.

* `drvdata` is the structure reached through `hid_get_drvdata`;
* `requests` are the `hid_hw_raw_request` calls made so far, oldest first;
* `transport k r` is what the transport returns for the request `r` when `k` requests were made
  before it (0 on success);
* `kzalloc_ok`, `parse_ret`, `hw_start_ret` are the outcomes of `devm_kzalloc`, `hid_parse` and
  `hid_hw_start`;
* `messages` are the lines written with `hid_err` and `hid_warn`, oldest first. -/
structure hid_device where
  drvdata : tpcompactkbd_sc
  requests : List raw_request
  transport : Nat → raw_request → Int
  kzalloc_ok : Bool
  parse_ret : Int
  hw_start_ret : Int
  messages : List (log_level × String)

/-- The fields of `struct hid_usage` the driver reads and the HID core writes. -/
structure hid_usage where
  hid : Nat
  type : Nat
  code : Nat
  deriving DecidableEq, Repr

/-- One call of `hid_map_usage_clear(hi, usage, bit, max, type, c)`, for the usage `hid`. -/
structure map_call where
  hid : Nat
  type : Nat
  c : Nat
  deriving DecidableEq, Repr

/-- The field `evbit` of `struct input_dev`, a bitmap stored as a number. -/
structure input_dev where
  evbit : Nat
  deriving DecidableEq, Repr

/-- The input device behind `struct hid_input`, with the `hid_map_usage_clear` calls made on
it so far, oldest first. -/
structure hid_input where
  input : input_dev
  map_calls : List map_call
  deriving DecidableEq, Repr

/-! ## The HID core, as far as the driver calls it -/

/-- Kernel `set_bit(nr, addr)` on a bitmap stored as a number. -/
def set_bit (nr : Nat) (addr : Nat) : Nat :=
  addr ||| (1 <<< nr)

/-- Modelled from the spec: `hid_map_usage_clear` of `include/linux/hid.h` is not part of the
driver file.  It stores the event type and the key code in the usage; the call is recorded. -/
def hid_map_usage_clear (hi : hid_input) (usage : hid_usage) (type : Nat) (c : Nat) :
    hid_input × hid_usage :=
  ({ hi with map_calls := hi.map_calls ++ [⟨usage.hid, type, c⟩] },
   { usage with type := type, code := c })

/-- Modelled from the spec: `hid_hw_raw_request` of `drivers/hid/hid-core.c` is not part of the
driver file.  It hands the buffer to the transport, once, and returns the transport's result. -/
def hid_hw_raw_request (hdev : hid_device) (reportnum : Nat) (buf : List Nat) (len : Nat)
    (rtype : hid_report_type) (reqtype : hid_class_request) : Int × hid_device :=
  let r : raw_request := ⟨reportnum, buf, len, rtype, reqtype⟩
  (hdev.transport hdev.requests.length r, { hdev with requests := hdev.requests ++ [r] })

/-- Kernel `hid_err(hdev, msg)`. -/
def hid_err (hdev : hid_device) (msg : String) : hid_device :=
  { hdev with messages := hdev.messages ++ [(log_level.err, msg)] }

/-- Kernel `hid_warn(hdev, msg)`. -/
def hid_warn (hdev : hid_device) (msg : String) : hid_device :=
  { hdev with messages := hdev.messages ++ [(log_level.warn, msg)] }

/-! ## The driver -/

/-- Source: `tpcompactkbd_send_cmd`.  The parameters are `unsigned char`, so an argument is
reduced modulo 256; `sizeof(buf)` is 3. -/
def tpcompactkbd_send_cmd (hdev : hid_device) (byte2 byte3 : Nat) : Int × hid_device :=
  let buf : List Nat := [0x18, byte2 % 256, byte3 % 256]
  hid_hw_raw_request hdev (buf.getD 0 0) buf buf.length
    hid_report_type.HID_FEATURE_REPORT hid_class_request.HID_REQ_SET_REPORT

/-- Source: `tpcompactkbd_toggle_fnlock`; `fnmode` is the module parameter.  On an
`unsigned int`, `!x` is 1 when `x` is 0 and 0 otherwise. -/
def tpcompactkbd_toggle_fnlock (fnmode : Nat) (hdev : hid_device) : hid_device :=
  let tpcsc := hdev.drvdata
  let fn_lock : Nat :=
    if fnmode = 2 then 0 else if fnmode = 1 then 1 else (if tpcsc.fn_lock = 0 then 1 else 0)
  let hdev := { hdev with drvdata := { tpcsc with fn_lock := fn_lock } }
  let r := tpcompactkbd_send_cmd hdev 0x05 (if hdev.drvdata.fn_lock ≠ 0 then 0x01 else 0x00)
  if r.1 ≠ 0 then hid_err r.2 ("Fn-lock toggle failed\n") else r.2

/-- What `tpcompactkbd_input_mapping` leaves behind: the return value, the input device and
the usage. -/
structure mapping_result where
  ret : Int
  hi : hid_input
  usage : hid_usage
  deriving DecidableEq, Repr

/-- Source macro `tpckbd_map_key_clear(c)` followed by `return 1`. -/
def tpckbd_map_key_clear (K : input_codes) (hi : hid_input) (usage : hid_usage) (c : Nat) :
    mapping_result :=
  let r := hid_map_usage_clear hi usage K.EV_KEY c
  ⟨1, r.1, r.2⟩

/-- Source: second `if` block of `tpcompactkbd_input_mapping` (the vendor page) and the final
`return 0`, reached when the first block did not return. -/
def input_mapping_msvendor (K : input_codes) (hi : hid_input) (usage : hid_usage) :
    mapping_result :=
  if usage.hid &&& HID_USAGE_PAGE = HID_UP_MSVENDOR then
    let hi : hid_input :=
      { hi with input := { hi.input with evbit := set_bit K.EV_REP hi.input.evbit } }
    match usage.hid &&& HID_USAGE with
    | 0x00f0 => tpckbd_map_key_clear K hi usage K.KEY_FN_ESC
    | 0x00f1 => tpckbd_map_key_clear K hi usage K.KEY_MICMUTE
    | 0x00f2 => tpckbd_map_key_clear K hi usage K.KEY_BRIGHTNESSDOWN
    | 0x00f3 => tpckbd_map_key_clear K hi usage K.KEY_BRIGHTNESSUP
    | 0x00f4 => tpckbd_map_key_clear K hi usage K.KEY_SWITCHVIDEOMODE
    | 0x00f5 => tpckbd_map_key_clear K hi usage K.KEY_FN_F8
    | 0x00f6 => tpckbd_map_key_clear K hi usage K.KEY_CONFIG
    | 0x00f8 => tpckbd_map_key_clear K hi usage K.KEY_FN_F11
    | 0x00fa => tpckbd_map_key_clear K hi usage K.KEY_FN_ESC
    | _ => ⟨0, hi, usage⟩
  else ⟨0, hi, usage⟩

/-- Source: `tpcompactkbd_input_mapping`.  The first `if` block (the consumer page) returns on
a `case`; otherwise control falls out of the `switch` into the second block. -/
def tpcompactkbd_input_mapping (K : input_codes) (hi : hid_input) (usage : hid_usage) :
    mapping_result :=
  if usage.hid &&& HID_USAGE_PAGE = HID_UP_CONSUMER then
    let hi : hid_input :=
      { hi with input := { hi.input with evbit := set_bit K.EV_REP hi.input.evbit } }
    match usage.hid &&& HID_USAGE with
    | 0x03f1 => tpckbd_map_key_clear K hi usage K.KEY_FN_F8
    | 0x0221 => tpckbd_map_key_clear K hi usage K.KEY_SEARCH
    | 0x03f2 => tpckbd_map_key_clear K hi usage K.KEY_FN_F12
    | _ => input_mapping_msvendor K hi usage
  else input_mapping_msvendor K hi usage

/-- Source: `tpcompactkbd_event`; `value` is a `__s32`. -/
def tpcompactkbd_event (K : input_codes) (fnmode : Nat) (hdev : hid_device) (usage : hid_usage)
    (value : Int) : Int × hid_device :=
  let hdev := if usage.code = K.KEY_FN_ESC ∧ value ≠ 0 then tpcompactkbd_toggle_fnlock fnmode hdev
    else hdev
  (0, hdev)

/-- Source: `tpcompactkbd_probe`.  `devm_kzalloc` returns zeroed memory, which
`hid_set_drvdata` makes the device's driver data. -/
def tpcompactkbd_probe (fnmode : Nat) (hdev : hid_device) : Int × hid_device :=
  if hdev.kzalloc_ok = false then
    (-ENOMEM, hid_err hdev ("can't alloc keyboard descriptor\n"))
  else
    let hdev := { hdev with drvdata := ⟨0⟩ }
    let ret := hdev.parse_ret
    if ret ≠ 0 then (ret, hid_err hdev ("hid_parse failed\n")) else
    let ret := hdev.hw_start_ret
    if ret ≠ 0 then (ret, hid_err hdev ("hid_hw_start failed\n")) else
    let r := tpcompactkbd_send_cmd hdev 0x01 0x03
    let hdev := if r.1 ≠ 0 then hid_warn r.2 ("Failed to switch F7/9/11 into regular keys\n")
      else r.2
    let hdev := { hdev with drvdata := { hdev.drvdata with fn_lock := 0 } }
    let hdev := tpcompactkbd_toggle_fnlock fnmode hdev
    (0, hdev)

/-! ## The documented mapping table and command format -/

/-- The twelve rows of the documented table, as (page, id, key code): three on the consumer
page `0x000c0000` and nine on the vendor page `0xff000000`. -/
def documented_table (K : input_codes) : List (Nat × Nat × Nat) :=
  [ (0x000c0000, 0x03f1, K.KEY_FN_F8),
    (0x000c0000, 0x0221, K.KEY_SEARCH),
    (0x000c0000, 0x03f2, K.KEY_FN_F12),
    (0xff000000, 0x00f0, K.KEY_FN_ESC),
    (0xff000000, 0x00f1, K.KEY_MICMUTE),
    (0xff000000, 0x00f2, K.KEY_BRIGHTNESSDOWN),
    (0xff000000, 0x00f3, K.KEY_BRIGHTNESSUP),
    (0xff000000, 0x00f4, K.KEY_SWITCHVIDEOMODE),
    (0xff000000, 0x00f5, K.KEY_FN_F8),
    (0xff000000, 0x00f6, K.KEY_CONFIG),
    (0xff000000, 0x00f8, K.KEY_FN_F11),
    (0xff000000, 0x00fa, K.KEY_FN_ESC) ]

/-- The documented 3-byte configuration command `{0x18, param1, param2}`: a SET_REPORT transfer
of a feature report with report id `0x18`. -/
def config_command (param1 param2 : Nat) : raw_request :=
  ⟨0x18, [0x18, param1, param2], 3,
    hid_report_type.HID_FEATURE_REPORT, hid_class_request.HID_REQ_SET_REPORT⟩

/-- A device for concrete runs: the given `fn_lock`, the given transport, nothing sent or
logged yet, and `devm_kzalloc`, `hid_parse` and `hid_hw_start` succeeding. -/
def sample_device (fn_lock : Nat) (transport : Nat → raw_request → Int) : hid_device :=
  ⟨⟨fn_lock⟩, [], transport, true, 0, 0, []⟩

/-- The HID core delivering input events to the driver one after the other: each
`tpcompactkbd_event` call runs on the device as the previous call left it.  An event is a
usage (with its key code) and a value. -/
def run_events (K : input_codes) (fnmode : Nat) (hdev : hid_device) :
    List (hid_usage × Int) → hid_device
  | [] => hdev
  | ev :: rest => run_events K fnmode (tpcompactkbd_event K fnmode hdev ev.1 ev.2).2 rest

/-! ## Helper lemmas -/

lemma send_cmd_fst (hdev : hid_device) (p1 p2 : Nat) :
    (tpcompactkbd_send_cmd hdev p1 p2).1
      = hdev.transport hdev.requests.length (config_command (p1 % 256) (p2 % 256)) := rfl

lemma send_cmd_snd (hdev : hid_device) (p1 p2 : Nat) :
    (tpcompactkbd_send_cmd hdev p1 p2).2
      = { hdev with requests := hdev.requests ++ [config_command (p1 % 256) (p2 % 256)] } := rfl

lemma toggle_fn_lock (fnmode : Nat) (hdev : hid_device) :
    (tpcompactkbd_toggle_fnlock fnmode hdev).drvdata.fn_lock
      = if fnmode = 2 then 0 else if fnmode = 1 then 1
        else (if hdev.drvdata.fn_lock = 0 then 1 else 0) := by
  unfold tpcompactkbd_toggle_fnlock
  simp only [send_cmd_fst, send_cmd_snd, hid_err]
  split_ifs <;> rfl

lemma toggle_requests (fnmode : Nat) (hdev : hid_device) :
    (tpcompactkbd_toggle_fnlock fnmode hdev).requests
      = hdev.requests ++ [config_command 0x05
          (if (tpcompactkbd_toggle_fnlock fnmode hdev).drvdata.fn_lock = 0 then 0x00 else 0x01)] := by
  rw [toggle_fn_lock]
  unfold tpcompactkbd_toggle_fnlock
  simp only [send_cmd_fst, send_cmd_snd, hid_err]
  split_ifs <;> simp_all

lemma toggle_transport (fnmode : Nat) (hdev : hid_device) :
    (tpcompactkbd_toggle_fnlock fnmode hdev).transport = hdev.transport := by
  unfold tpcompactkbd_toggle_fnlock
  simp only [send_cmd_fst, send_cmd_snd, hid_err]
  split_ifs <;> rfl

lemma input_mapping_fn_esc (K : input_codes) (hi : hid_input) (usage : hid_usage)
    (hpage : usage.hid &&& 0xffff0000 = 0xff000000)
    (hid : usage.hid &&& 0xffff = 0x00f0 ∨ usage.hid &&& 0xffff = 0x00fa) :
    (tpcompactkbd_input_mapping K hi usage).ret = 1 ∧
    (tpcompactkbd_input_mapping K hi usage).usage.code = K.KEY_FN_ESC := by
  rcases hid with hid | hid <;>
    simp [tpcompactkbd_input_mapping, input_mapping_msvendor, tpckbd_map_key_clear,
      hid_map_usage_clear, HID_USAGE_PAGE, HID_USAGE, HID_UP_CONSUMER, HID_UP_MSVENDOR,
      hpage, hid]

lemma toggle_fixed_mode (fnmode : Nat) (hmode : fnmode = 1 ∨ fnmode = 2) (hdev : hid_device) :
    (tpcompactkbd_toggle_fnlock fnmode hdev).drvdata.fn_lock = (if fnmode = 1 then 1 else 0) ∧
    (tpcompactkbd_toggle_fnlock fnmode hdev).requests
      = hdev.requests ++ [config_command 0x05 (if fnmode = 1 then 0x01 else 0x00)] := by
  rw [toggle_requests, toggle_fn_lock]
  rcases hmode with rfl | rfl <;> simp

lemma probe_started (fnmode : Nat) (hdev : hid_device) (halloc : hdev.kzalloc_ok = true)
    (hparse : hdev.parse_ret = 0) (hstart : hdev.hw_start_ret = 0) :
    (tpcompactkbd_probe fnmode hdev).1 = 0 ∧
    (tpcompactkbd_probe fnmode hdev).2.drvdata.fn_lock = (if fnmode = 2 then 0 else 1) ∧
    (tpcompactkbd_probe fnmode hdev).2.requests
      = hdev.requests
        ++ [config_command 0x01 0x03, config_command 0x05 (if fnmode = 2 then 0x00 else 0x01)] := by
  unfold tpcompactkbd_probe
  simp only [halloc, hparse, hstart, send_cmd_fst, send_cmd_snd, hid_warn]
  refine ⟨by simp, ?_, ?_⟩
  · simp only [Bool.true_eq_false, if_false, ne_eq, not_true_eq_false, toggle_fn_lock]
    split_ifs <;> simp_all
  · simp only [Bool.true_eq_false, if_false, ne_eq, not_true_eq_false, toggle_requests,
      toggle_fn_lock]
    split_ifs <;> simp_all

lemma toggle_messages (fnmode : Nat) (hdev : hid_device) :
    (tpcompactkbd_toggle_fnlock fnmode hdev).messages
      = if hdev.transport hdev.requests.length (config_command 0x05
            (if (tpcompactkbd_toggle_fnlock fnmode hdev).drvdata.fn_lock = 0 then 0x00 else 0x01)) ≠ 0
        then hdev.messages ++ [(log_level.err, "Fn-lock toggle failed\n")] else hdev.messages := by
  rw [toggle_fn_lock]
  unfold tpcompactkbd_toggle_fnlock
  simp only [send_cmd_fst, send_cmd_snd, hid_err]
  split_ifs <;> simp_all

lemma toggle_fn_lock_le_one (fnmode : Nat) (hdev : hid_device) :
    (tpcompactkbd_toggle_fnlock fnmode hdev).drvdata.fn_lock ≤ 1 := by
  rw [toggle_fn_lock]
  split_ifs <;> omega

lemma event_eq (K : input_codes) (fnmode : Nat) (hdev : hid_device) (usage : hid_usage)
    (value : Int) :
    tpcompactkbd_event K fnmode hdev usage value
      = (0, if usage.code = K.KEY_FN_ESC ∧ value ≠ 0 then tpcompactkbd_toggle_fnlock fnmode hdev
          else hdev) := rfl

lemma probe_ret_zero (fnmode : Nat) (hdev : hid_device)
    (h : (tpcompactkbd_probe fnmode hdev).1 = 0) :
    hdev.kzalloc_ok = true ∧ hdev.parse_ret = 0 ∧ hdev.hw_start_ret = 0 := by
  unfold tpcompactkbd_probe at h
  by_cases ha : hdev.kzalloc_ok = false
  · simp [ha, ENOMEM] at h
  · by_cases hp : hdev.parse_ret = 0
    · by_cases hs : hdev.hw_start_ret = 0
      · exact ⟨by simpa using ha, hp, hs⟩
      · simp [ha, hp, hs] at h
    · simp [ha, hp] at h

lemma run_events_fn_lock_le_one (K : input_codes) (fnmode : Nat)
    (evs : List (hid_usage × Int)) :
    ∀ hdev : hid_device, hdev.drvdata.fn_lock ≤ 1 →
      (run_events K fnmode hdev evs).drvdata.fn_lock ≤ 1 := by
  induction evs with
  | nil => intro hdev h; exact h
  | cons ev rest ih =>
    intro hdev h
    simp only [run_events, event_eq]
    apply ih
    split_ifs
    · exact toggle_fn_lock_le_one fnmode hdev
    · exact h

lemma reachable_fn_lock_le_one (K : input_codes) (fnmode : Nat) (hdev : hid_device)
    (evs : List (hid_usage × Int)) (hprobe : (tpcompactkbd_probe fnmode hdev).1 = 0) :
    (run_events K fnmode (tpcompactkbd_probe fnmode hdev).2 evs).drvdata.fn_lock ≤ 1 := by
  obtain ⟨ha, hp, hs⟩ := probe_ret_zero fnmode hdev hprobe
  apply run_events_fn_lock_le_one
  rw [(probe_started fnmode hdev ha hp hs).2.1]
  split_ifs <;> omega

lemma run_events_fixed_mode (K : input_codes) (fnmode : Nat) (hmode : fnmode = 1 ∨ fnmode = 2)
    (evs : List (hid_usage × Int)) :
    ∀ hdev : hid_device, hdev.drvdata.fn_lock = (if fnmode = 1 then 1 else 0) →
      (run_events K fnmode hdev evs).drvdata.fn_lock = (if fnmode = 1 then 1 else 0) ∧
      ∃ n, (run_events K fnmode hdev evs).requests
        = hdev.requests
          ++ List.replicate n (config_command 0x05 (if fnmode = 1 then 0x01 else 0x00)) := by
  induction evs with
  | nil => intro hdev h; exact ⟨h, 0, by simp [run_events]⟩
  | cons ev rest ih =>
    intro hdev h
    by_cases hev : ev.1.code = K.KEY_FN_ESC ∧ ev.2 ≠ 0
    · simp only [run_events, event_eq, if_pos hev]
      obtain ⟨hl, n, hr⟩ := ih (tpcompactkbd_toggle_fnlock fnmode hdev)
        (toggle_fixed_mode fnmode hmode hdev).1
      refine ⟨hl, n + 1, ?_⟩
      rw [hr, (toggle_fixed_mode fnmode hmode hdev).2, List.append_assoc,
        List.singleton_append, List.replicate_succ]
    · simp only [run_events, event_eq, if_neg hev]
      exact ih hdev h

lemma set_bit_testBit (nr addr : Nat) : (set_bit nr addr).testBit nr = true := by
  simp [set_bit, Nat.testBit_or, Nat.one_shiftLeft, Nat.testBit_two_pow_self]

lemma set_bit_idem (nr addr : Nat) : set_bit nr (set_bit nr addr) = set_bit nr addr := by
  simp [set_bit, Nat.or_assoc]

lemma input_mapping_evbit (K : input_codes) (hi : hid_input) (usage : hid_usage) :
    (tpcompactkbd_input_mapping K hi usage).hi.input.evbit
      = if usage.hid &&& 0xffff0000 = 0x000c0000 ∨ usage.hid &&& 0xffff0000 = 0xff000000
        then set_bit K.EV_REP hi.input.evbit else hi.input.evbit := by
  unfold tpcompactkbd_input_mapping input_mapping_msvendor
  simp only [HID_USAGE_PAGE, HID_USAGE, HID_UP_CONSUMER, HID_UP_MSVENDOR]
  split_ifs with hc hv hv h h h h
  all_goals first
    | omega
    | (split <;> simp [tpckbd_map_key_clear, hid_map_usage_clear])
    | simp

lemma input_mapping_ret_page (K : input_codes) (hi : hid_input) (usage : hid_usage)
    (h : (tpcompactkbd_input_mapping K hi usage).ret = 1) :
    usage.hid &&& 0xffff0000 = 0x000c0000 ∨ usage.hid &&& 0xffff0000 = 0xff000000 := by
  by_contra hn
  rw [not_or] at hn
  unfold tpcompactkbd_input_mapping input_mapping_msvendor at h
  simp [HID_USAGE_PAGE, HID_UP_CONSUMER, HID_UP_MSVENDOR, hn.1, hn.2] at h

lemma input_mapping_consumer_9999 (K : input_codes) (hi : hid_input) (usage : hid_usage)
    (hpage : usage.hid &&& 0xffff0000 = 0x000c0000) (hid : usage.hid &&& 0xffff = 0x9999) :
    (tpcompactkbd_input_mapping K hi usage).ret = 0 := by
  simp [tpcompactkbd_input_mapping, input_mapping_msvendor, HID_USAGE_PAGE, HID_USAGE,
    HID_UP_CONSUMER, HID_UP_MSVENDOR, hpage, hid]

/-! ## Usage mapper -/

/-- C1: for each of the twelve documented (page, id) rows, a usage with that page
(`hid & 0xffff0000`) and that id (`hid & 0xffff`) makes `tpcompactkbd_input_mapping` return 1,
store the row's key code (with type `EV_KEY`) in the usage, and make exactly one
`hid_map_usage_clear` call, for that key code. -/
theorem input_mapping_documented (K : input_codes) (hi : hid_input) (usage : hid_usage)
    (page id key : Nat) (hrow : (page, id, key) ∈ documented_table K)
    (hpage : usage.hid &&& 0xffff0000 = page) (hid : usage.hid &&& 0xffff = id) :
    (tpcompactkbd_input_mapping K hi usage).ret = 1 ∧
    (tpcompactkbd_input_mapping K hi usage).usage = { usage with type := K.EV_KEY, code := key } ∧
    (tpcompactkbd_input_mapping K hi usage).hi.map_calls
      = hi.map_calls ++ [⟨usage.hid, K.EV_KEY, key⟩] := by
  simp only [documented_table, List.mem_cons, Prod.mk.injEq, List.mem_singleton,
    List.not_mem_nil, or_false] at hrow
  rcases hrow with h | h | h | h | h | h | h | h | h | h | h | h <;>
    obtain ⟨rfl, rfl, rfl⟩ := h <;>
    simp [tpcompactkbd_input_mapping, input_mapping_msvendor, tpckbd_map_key_clear,
      hid_map_usage_clear, HID_USAGE_PAGE, HID_USAGE, HID_UP_CONSUMER, HID_UP_MSVENDOR,
      hpage, hid]

/-- C1, run on the consumer usage `0x000c03f1` with the header's key codes. -/
theorem input_mapping_documented_witness :
    ((0x000c0000, 0x03f1, linux_input_codes.KEY_FN_F8) ∈ documented_table linux_input_codes ∧
      (0x000c03f1 : Nat) &&& 0xffff0000 = 0x000c0000 ∧ (0x000c03f1 : Nat) &&& 0xffff = 0x03f1) ∧
    (tpcompactkbd_input_mapping linux_input_codes ⟨⟨0⟩, []⟩ ⟨0x000c03f1, 0, 0⟩).ret = 1 ∧
    (tpcompactkbd_input_mapping linux_input_codes ⟨⟨0⟩, []⟩ ⟨0x000c03f1, 0, 0⟩).usage
      = ⟨0x000c03f1, 0x01, 0x1d9⟩ ∧
    (tpcompactkbd_input_mapping linux_input_codes ⟨⟨0⟩, []⟩ ⟨0x000c03f1, 0, 0⟩).hi.map_calls
      = [⟨0x000c03f1, 0x01, 0x1d9⟩] :=
  ⟨⟨by decide, by decide, by decide⟩,
    input_mapping_documented linux_input_codes ⟨⟨0⟩, []⟩ ⟨0x000c03f1, 0, 0⟩
      0x000c0000 0x03f1 linux_input_codes.KEY_FN_F8 (by decide) (by decide) (by decide)⟩

/-- C2: a usage whose (page, id) pair is in no row of the documented table makes
`tpcompactkbd_input_mapping` return 0, leaves the usage as it was and makes no
`hid_map_usage_clear` call. -/
theorem input_mapping_undocumented (K : input_codes) (hi : hid_input) (usage : hid_usage)
    (hnot : ∀ key, (usage.hid &&& 0xffff0000, usage.hid &&& 0xffff, key) ∉ documented_table K) :
    (tpcompactkbd_input_mapping K hi usage).ret = 0 ∧
    (tpcompactkbd_input_mapping K hi usage).usage = usage ∧
    (tpcompactkbd_input_mapping K hi usage).hi.map_calls = hi.map_calls := by
  simp only [documented_table, List.mem_cons, Prod.mk.injEq, List.mem_singleton,
    List.not_mem_nil, or_false, not_or, not_and] at hnot
  unfold tpcompactkbd_input_mapping input_mapping_msvendor
  simp only [HID_USAGE_PAGE, HID_USAGE, HID_UP_CONSUMER, HID_UP_MSVENDOR]
  split_ifs with hc hv hv
  · omega
  · split
    · exact absurd rfl ((hnot (K.KEY_FN_F8)).1 hc (by assumption))
    · exact absurd rfl ((hnot (K.KEY_SEARCH)).2.1 hc (by assumption))
    · exact absurd rfl ((hnot (K.KEY_FN_F12)).2.2.1 hc (by assumption))
    · simp
  · split
    · exact absurd rfl ((hnot (K.KEY_FN_ESC)).2.2.2.1 hv (by assumption))
    · exact absurd rfl ((hnot (K.KEY_MICMUTE)).2.2.2.2.1 hv (by assumption))
    · exact absurd rfl ((hnot (K.KEY_BRIGHTNESSDOWN)).2.2.2.2.2.1 hv (by assumption))
    · exact absurd rfl ((hnot (K.KEY_BRIGHTNESSUP)).2.2.2.2.2.2.1 hv (by assumption))
    · exact absurd rfl ((hnot (K.KEY_SWITCHVIDEOMODE)).2.2.2.2.2.2.2.1 hv (by assumption))
    · exact absurd rfl ((hnot (K.KEY_FN_F8)).2.2.2.2.2.2.2.2.1 hv (by assumption))
    · exact absurd rfl ((hnot (K.KEY_CONFIG)).2.2.2.2.2.2.2.2.2.1 hv (by assumption))
    · exact absurd rfl ((hnot (K.KEY_FN_F11)).2.2.2.2.2.2.2.2.2.2.1 hv (by assumption))
    · exact absurd rfl ((hnot (K.KEY_FN_ESC)).2.2.2.2.2.2.2.2.2.2.2 hv (by assumption))
    · simp
  · simp

/-- C2, run on the consumer usage `0x9999`, on the ids that exist only on the other page
(consumer `0x00f1`, vendor `0x0221`) and on the vendor gap ids `0x00f7` and `0x00f9`. -/
theorem input_mapping_undocumented_witness :
    (∀ key, ((0x000c9999 : Nat) &&& 0xffff0000, (0x000c9999 : Nat) &&& 0xffff, key)
        ∉ documented_table linux_input_codes) ∧
    ((tpcompactkbd_input_mapping linux_input_codes ⟨⟨0⟩, []⟩ ⟨0x000c9999, 0, 0⟩).ret = 0 ∧
      (tpcompactkbd_input_mapping linux_input_codes ⟨⟨0⟩, []⟩ ⟨0x000c9999, 0, 0⟩).usage
        = ⟨0x000c9999, 0, 0⟩ ∧
      (tpcompactkbd_input_mapping linux_input_codes ⟨⟨0⟩, []⟩ ⟨0x000c9999, 0, 0⟩).hi.map_calls
        = []) ∧
    (tpcompactkbd_input_mapping linux_input_codes ⟨⟨0⟩, []⟩ ⟨0x000c00f1, 0, 0⟩).ret = 0 ∧
    (tpcompactkbd_input_mapping linux_input_codes ⟨⟨0⟩, []⟩ ⟨0xff000221, 0, 0⟩).ret = 0 ∧
    (tpcompactkbd_input_mapping linux_input_codes ⟨⟨0⟩, []⟩ ⟨0xff0000f7, 0, 0⟩).ret = 0 ∧
    (tpcompactkbd_input_mapping linux_input_codes ⟨⟨0⟩, []⟩ ⟨0xff0000f9, 0, 0⟩).ret = 0 :=
  ⟨by intro key; simp +decide [documented_table],
    input_mapping_undocumented linux_input_codes ⟨⟨0⟩, []⟩ ⟨0x000c9999, 0, 0⟩
      (by intro key; simp +decide [documented_table]),
    (input_mapping_undocumented linux_input_codes ⟨⟨0⟩, []⟩ ⟨0x000c00f1, 0, 0⟩
      (by intro key; simp +decide [documented_table])).1,
    (input_mapping_undocumented linux_input_codes ⟨⟨0⟩, []⟩ ⟨0xff000221, 0, 0⟩
      (by intro key; simp +decide [documented_table])).1,
    (input_mapping_undocumented linux_input_codes ⟨⟨0⟩, []⟩ ⟨0xff0000f7, 0, 0⟩
      (by intro key; simp +decide [documented_table])).1,
    (input_mapping_undocumented linux_input_codes ⟨⟨0⟩, []⟩ ⟨0xff0000f9, 0, 0⟩
      (by intro key; simp +decide [documented_table])).1⟩

/-! ## Fn-lock controller -/

/-- C3: the vendor usages `0x00f0` and `0x00fa` are both mapped to `KEY_FN_ESC`, and for every
device state and every nonzero value `tpcompactkbd_event` with that key code is exactly one
`tpcompactkbd_toggle_fnlock`: it returns 0 and issues exactly one command `{0x18, 0x05, b}`. -/
theorem fn_esc_toggles_once (K : input_codes) (fnmode : Nat) (hi : hid_input) (t c : Nat)
    (hdev : hid_device) (usage : hid_usage) (value : Int)
    (hcode : usage.code = K.KEY_FN_ESC) (hvalue : value ≠ 0) :
    (tpcompactkbd_input_mapping K hi ⟨0xff0000f0, t, c⟩).usage.code = K.KEY_FN_ESC ∧
    (tpcompactkbd_input_mapping K hi ⟨0xff0000fa, t, c⟩).usage.code = K.KEY_FN_ESC ∧
    (tpcompactkbd_input_mapping K hi ⟨0xff0000f0, t, c⟩).ret = 1 ∧
    (tpcompactkbd_input_mapping K hi ⟨0xff0000fa, t, c⟩).ret = 1 ∧
    tpcompactkbd_event K fnmode hdev usage value = (0, tpcompactkbd_toggle_fnlock fnmode hdev) ∧
    ∃ b, (tpcompactkbd_event K fnmode hdev usage value).2.requests
      = hdev.requests ++ [config_command 0x05 b] := by
  have hev : tpcompactkbd_event K fnmode hdev usage value
      = (0, tpcompactkbd_toggle_fnlock fnmode hdev) := by
    simp [tpcompactkbd_event, hcode, hvalue]
  have h0 := input_mapping_fn_esc K hi ⟨0xff0000f0, t, c⟩
    (show (0xff0000f0 : Nat) &&& 0xffff0000 = 0xff000000 from by decide)
    (Or.inl (show (0xff0000f0 : Nat) &&& 0xffff = 0x00f0 from by decide))
  have ha := input_mapping_fn_esc K hi ⟨0xff0000fa, t, c⟩
    (show (0xff0000fa : Nat) &&& 0xffff0000 = 0xff000000 from by decide)
    (Or.inr (show (0xff0000fa : Nat) &&& 0xffff = 0x00fa from by decide))
  refine ⟨h0.2, ha.2, h0.1, ha.1, hev, ?_⟩
  rw [hev]
  exact ⟨_, toggle_requests fnmode hdev⟩

/-- C3, run in normal mode on an unlocked device whose transport succeeds: a `KEY_FN_ESC`
key-down sends the single command `{0x18, 0x05, 0x01}`. -/
theorem fn_esc_toggles_once_witness :
    ((⟨0xff0000f0, 0x01, 0x1d1⟩ : hid_usage).code = linux_input_codes.KEY_FN_ESC ∧
      (1 : Int) ≠ 0) ∧
    (tpcompactkbd_input_mapping linux_input_codes ⟨⟨0⟩, []⟩ ⟨0xff0000f0, 0, 0⟩).usage.code
      = linux_input_codes.KEY_FN_ESC ∧
    (tpcompactkbd_input_mapping linux_input_codes ⟨⟨0⟩, []⟩ ⟨0xff0000fa, 0, 0⟩).usage.code
      = linux_input_codes.KEY_FN_ESC ∧
    (tpcompactkbd_input_mapping linux_input_codes ⟨⟨0⟩, []⟩ ⟨0xff0000f0, 0, 0⟩).ret = 1 ∧
    (tpcompactkbd_input_mapping linux_input_codes ⟨⟨0⟩, []⟩ ⟨0xff0000fa, 0, 0⟩).ret = 1 ∧
    tpcompactkbd_event linux_input_codes 0 (sample_device 0 (fun _ _ => 0))
        ⟨0xff0000f0, 0x01, 0x1d1⟩ 1
      = (0, tpcompactkbd_toggle_fnlock 0 (sample_device 0 (fun _ _ => 0))) ∧
    ∃ b, (tpcompactkbd_event linux_input_codes 0 (sample_device 0 (fun _ _ => 0))
        ⟨0xff0000f0, 0x01, 0x1d1⟩ 1).2.requests
      = (sample_device 0 (fun _ _ => 0)).requests ++ [config_command 0x05 b] :=
  ⟨⟨by decide, by decide⟩,
    fn_esc_toggles_once linux_input_codes 0 ⟨⟨0⟩, []⟩ 0 0 (sample_device 0 (fun _ _ => 0))
      ⟨0xff0000f0, 0x01, 0x1d1⟩ 1 (by decide) (by decide)⟩

/-- C4: `tpcompactkbd_toggle_fnlock` stores 0 (unlocked) when `fnmode` is 2, 1 (locked) when
`fnmode` is 1, and the logical negation of the stored `fn_lock` when `fnmode` is 0; for every
`fnmode` and device it then issues exactly one command `{0x18, 0x05, b}`, where `b` is `0x01`
if the value it has just stored is 1 (locked) and `0x00` otherwise. -/
theorem toggle_fnlock_next_state (fnmode : Nat) (hdev : hid_device) :
    (tpcompactkbd_toggle_fnlock 2 hdev).drvdata.fn_lock = 0 ∧
    (tpcompactkbd_toggle_fnlock 1 hdev).drvdata.fn_lock = 1 ∧
    (tpcompactkbd_toggle_fnlock 0 hdev).drvdata.fn_lock
      = (if hdev.drvdata.fn_lock = 0 then 1 else 0) ∧
    (tpcompactkbd_toggle_fnlock fnmode hdev).requests
      = hdev.requests ++ [config_command 0x05
          (if (tpcompactkbd_toggle_fnlock fnmode hdev).drvdata.fn_lock = 1 then 0x01 else 0x00)] := by
  refine ⟨?_, ?_, ?_, ?_⟩
  · simp [toggle_fn_lock]
  · simp [toggle_fn_lock]
  · simp [toggle_fn_lock]
  · rw [toggle_requests, toggle_fn_lock]
    split_ifs <;> simp_all

/-- C5: in normal mode (`fnmode = 0`), in every session state, that is every state reached by
a `tpcompactkbd_probe` that returned 0 followed by any run of `tpcompactkbd_event` calls, two
consecutive calls of `tpcompactkbd_toggle_fnlock` return `fn_lock` to its original value, and
they issue two commands with complementary bytes: `{0x18, 0x05, 1 - fn_lock}` and then
`{0x18, 0x05, fn_lock}`, where `fn_lock` is 0 or 1. -/
theorem toggle_round_trip (K : input_codes) (fnmode : Nat) (hdev : hid_device)
    (evs : List (hid_usage × Int)) (hprobe : (tpcompactkbd_probe fnmode hdev).1 = 0) :
    (tpcompactkbd_toggle_fnlock 0 (tpcompactkbd_toggle_fnlock 0
        (run_events K fnmode (tpcompactkbd_probe fnmode hdev).2 evs))).drvdata.fn_lock
      = (run_events K fnmode (tpcompactkbd_probe fnmode hdev).2 evs).drvdata.fn_lock ∧
    ((run_events K fnmode (tpcompactkbd_probe fnmode hdev).2 evs).drvdata.fn_lock = 0 ∨
      (run_events K fnmode (tpcompactkbd_probe fnmode hdev).2 evs).drvdata.fn_lock = 1) ∧
    (tpcompactkbd_toggle_fnlock 0 (tpcompactkbd_toggle_fnlock 0
        (run_events K fnmode (tpcompactkbd_probe fnmode hdev).2 evs))).requests
      = (run_events K fnmode (tpcompactkbd_probe fnmode hdev).2 evs).requests
        ++ [config_command 0x05
              (1 - (run_events K fnmode (tpcompactkbd_probe fnmode hdev).2 evs).drvdata.fn_lock),
            config_command 0x05
              (run_events K fnmode (tpcompactkbd_probe fnmode hdev).2 evs).drvdata.fn_lock] := by
  have hle := reachable_fn_lock_le_one K fnmode hdev evs hprobe
  generalize run_events K fnmode (tpcompactkbd_probe fnmode hdev).2 evs = d at hle ⊢
  have h01 : d.drvdata.fn_lock = 0 ∨ d.drvdata.fn_lock = 1 := by omega
  refine ⟨?_, h01, ?_⟩
  · rw [toggle_fn_lock, toggle_fn_lock]
    rcases h01 with h | h <;> simp [h]
  · rw [toggle_requests, toggle_requests]
    rcases h01 with h | h <;> simp [toggle_fn_lock, h]

/-- C5, run in normal mode: attach (the device is then locked) and one `KEY_FN_ESC` key-down
(unlocked); two more toggles leave it unlocked and send `{0x18, 0x05, 0x01}` then
`{0x18, 0x05, 0x00}`. -/
theorem toggle_round_trip_witness :
    (tpcompactkbd_probe 0 (sample_device 0 (fun _ _ => 0))).1 = 0 ∧
    (run_events linux_input_codes 0 (tpcompactkbd_probe 0 (sample_device 0 (fun _ _ => 0))).2
      [(⟨0xff0000f0, 0x01, 0x1d1⟩, 1)]).drvdata.fn_lock = 0 ∧
    (tpcompactkbd_toggle_fnlock 0 (tpcompactkbd_toggle_fnlock 0
      (run_events linux_input_codes 0 (tpcompactkbd_probe 0 (sample_device 0 (fun _ _ => 0))).2
        [(⟨0xff0000f0, 0x01, 0x1d1⟩, 1)]))).drvdata.fn_lock
      = (run_events linux_input_codes 0
          (tpcompactkbd_probe 0 (sample_device 0 (fun _ _ => 0))).2
          [(⟨0xff0000f0, 0x01, 0x1d1⟩, 1)]).drvdata.fn_lock ∧
    (tpcompactkbd_toggle_fnlock 0 (tpcompactkbd_toggle_fnlock 0
      (run_events linux_input_codes 0 (tpcompactkbd_probe 0 (sample_device 0 (fun _ _ => 0))).2
        [(⟨0xff0000f0, 0x01, 0x1d1⟩, 1)]))).requests
      = [config_command 0x01 0x03, config_command 0x05 0x01, config_command 0x05 0x00,
          config_command 0x05 0x01, config_command 0x05 0x00] :=
  ⟨rfl, rfl,
    (toggle_round_trip linux_input_codes 0 (sample_device 0 (fun _ _ => 0))
      [(⟨0xff0000f0, 0x01, 0x1d1⟩, 1)] rfl).1,
    rfl⟩

/-- C6: under a fixed mode `fnmode = 1` or `fnmode = 2` and for every `n ≥ 1`, after `n` calls
of `tpcompactkbd_toggle_fnlock` the field `fn_lock` has the value it had after the first call,
and the `n` calls have issued `n` commands `{0x18, 0x05, b}`, all with the byte the mode
determines (`0x01` for mode 1, `0x00` for mode 2). -/
theorem toggle_fnlock_idempotent (fnmode : Nat) (hdev : hid_device) (n : Nat)
    (hmode : fnmode = 1 ∨ fnmode = 2) (hn : 1 ≤ n) :
    (Nat.iterate (tpcompactkbd_toggle_fnlock fnmode) n hdev).drvdata.fn_lock
      = (tpcompactkbd_toggle_fnlock fnmode hdev).drvdata.fn_lock ∧
    (Nat.iterate (tpcompactkbd_toggle_fnlock fnmode) n hdev).requests
      = hdev.requests
        ++ List.replicate n (config_command 0x05 (if fnmode = 1 then 0x01 else 0x00)) := by
  induction n with
  | zero => omega
  | succ k ih =>
    rw [Function.iterate_succ_apply']
    rcases Nat.eq_zero_or_pos k with hk | hk
    · subst hk
      simp [(toggle_fixed_mode fnmode hmode hdev).2]
    · have ih := ih hk
      refine ⟨?_, ?_⟩
      · rw [(toggle_fixed_mode fnmode hmode _).1, (toggle_fixed_mode fnmode hmode hdev).1]
      · rw [(toggle_fixed_mode fnmode hmode _).2, ih.2, List.replicate_succ', List.append_assoc]

/-- C6, run in mode 1 for three calls on an unlocked device whose transport fails. -/
theorem toggle_fnlock_idempotent_witness :
    (((1 : Nat) = 1 ∨ (1 : Nat) = 2) ∧ 1 ≤ 3) ∧
    (Nat.iterate (tpcompactkbd_toggle_fnlock 1) 3
      (sample_device 0 (fun _ _ => -5))).drvdata.fn_lock
      = (tpcompactkbd_toggle_fnlock 1 (sample_device 0 (fun _ _ => -5))).drvdata.fn_lock ∧
    (Nat.iterate (tpcompactkbd_toggle_fnlock 1) 3 (sample_device 0 (fun _ _ => -5))).requests
      = (sample_device 0 (fun _ _ => -5)).requests
        ++ List.replicate 3 (config_command 0x05 (if (1 : Nat) = 1 then 0x01 else 0x00)) :=
  ⟨⟨by decide, by decide⟩,
    toggle_fnlock_idempotent 1 (sample_device 0 (fun _ _ => -5)) 3 (by decide) (by decide)⟩

/-- C7: for bytes `p1` and `p2`, `tpcompactkbd_send_cmd` makes exactly one
`hid_hw_raw_request` call, a SET_REPORT of a feature report with report id `0x18` and the 3-byte
payload `{0x18, p1, p2}`; it returns what the transport returns for that transfer, and it
neither touches the driver data nor logs anything. -/
theorem send_cmd_one_transfer (hdev : hid_device) (p1 p2 : Nat) (h1 : p1 < 256)
    (h2 : p2 < 256) :
    (tpcompactkbd_send_cmd hdev p1 p2).2.requests
      = hdev.requests ++ [⟨0x18, [0x18, p1, p2], 3,
          hid_report_type.HID_FEATURE_REPORT, hid_class_request.HID_REQ_SET_REPORT⟩] ∧
    (tpcompactkbd_send_cmd hdev p1 p2).1
      = hdev.transport hdev.requests.length ⟨0x18, [0x18, p1, p2], 3,
          hid_report_type.HID_FEATURE_REPORT, hid_class_request.HID_REQ_SET_REPORT⟩ ∧
    (tpcompactkbd_send_cmd hdev p1 p2).2.drvdata = hdev.drvdata ∧
    (tpcompactkbd_send_cmd hdev p1 p2).2.messages = hdev.messages := by
  have e1 : p1 % 256 = p1 := Nat.mod_eq_of_lt h1
  have e2 : p2 % 256 = p2 := Nat.mod_eq_of_lt h2
  refine ⟨?_, ?_, rfl, rfl⟩
  · rw [send_cmd_snd, e1, e2]
    rfl
  · rw [send_cmd_fst, e1, e2]
    rfl

/-- C7, run with the bytes `0x05`, `0x01` on a transport that answers `-5` (`-EIO`). -/
theorem send_cmd_one_transfer_witness :
    ((5 : Nat) < 256 ∧ (1 : Nat) < 256) ∧
    (tpcompactkbd_send_cmd (sample_device 0 (fun _ _ => -5)) 5 1).2.requests
      = [⟨0x18, [0x18, 5, 1], 3,
          hid_report_type.HID_FEATURE_REPORT, hid_class_request.HID_REQ_SET_REPORT⟩] ∧
    (tpcompactkbd_send_cmd (sample_device 0 (fun _ _ => -5)) 5 1).1 = -5 :=
  ⟨⟨by decide, by decide⟩,
    (send_cmd_one_transfer (sample_device 0 (fun _ _ => -5)) 5 1 (by decide) (by decide)).1,
    (send_cmd_one_transfer (sample_device 0 (fun _ _ => -5)) 5 1 (by decide) (by decide)).2.1⟩

/-! ## Device attach -/

/-- C8 (scenario A): with `fnmode = 0`, when the allocation, `hid_parse` and `hid_hw_start`
succeed, `tpcompactkbd_probe` returns 0, ends with `fn_lock = 1` (locked), and the commands it
sends are exactly `{0x18, 0x01, 0x03}` followed by `{0x18, 0x05, 0x01}`. -/
theorem probe_normal_mode (hdev : hid_device) (halloc : hdev.kzalloc_ok = true)
    (hparse : hdev.parse_ret = 0) (hstart : hdev.hw_start_ret = 0) :
    (tpcompactkbd_probe 0 hdev).1 = 0 ∧
    (tpcompactkbd_probe 0 hdev).2.drvdata.fn_lock = 1 ∧
    (tpcompactkbd_probe 0 hdev).2.requests
      = hdev.requests ++ [config_command 0x01 0x03, config_command 0x05 0x01] := by
  have h := probe_started 0 hdev halloc hparse hstart
  simpa using h

/-- C8, run on a fresh device whose transport succeeds. -/
theorem probe_normal_mode_witness :
    ((sample_device 0 (fun _ _ => 0)).kzalloc_ok = true ∧
      (sample_device 0 (fun _ _ => 0)).parse_ret = 0 ∧
      (sample_device 0 (fun _ _ => 0)).hw_start_ret = 0) ∧
    (tpcompactkbd_probe 0 (sample_device 0 (fun _ _ => 0))).1 = 0 ∧
    (tpcompactkbd_probe 0 (sample_device 0 (fun _ _ => 0))).2.drvdata.fn_lock = 1 ∧
    (tpcompactkbd_probe 0 (sample_device 0 (fun _ _ => 0))).2.requests
      = [config_command 0x01 0x03, config_command 0x05 0x01] :=
  ⟨⟨rfl, rfl, rfl⟩, probe_normal_mode (sample_device 0 (fun _ _ => 0)) rfl rfl rfl⟩

/-- C9 (scenario B): with `fnmode = 2`, when the allocation, `hid_parse` and `hid_hw_start`
succeed, `tpcompactkbd_probe` ends with `fn_lock = 0` (unlocked) and its second command is
`{0x18, 0x05, 0x00}`, whatever `fn_lock` the device held before; and the toggle itself, from
any baseline value of `fn_lock`, stores 0 and sends `{0x18, 0x05, 0x00}`. -/
theorem probe_always_off (hdev : hid_device) (halloc : hdev.kzalloc_ok = true)
    (hparse : hdev.parse_ret = 0) (hstart : hdev.hw_start_ret = 0) :
    (tpcompactkbd_probe 2 hdev).2.drvdata.fn_lock = 0 ∧
    (tpcompactkbd_probe 2 hdev).2.requests
      = hdev.requests ++ [config_command 0x01 0x03, config_command 0x05 0x00] ∧
    ∀ d : hid_device,
      (tpcompactkbd_toggle_fnlock 2 d).drvdata.fn_lock = 0 ∧
      (tpcompactkbd_toggle_fnlock 2 d).requests = d.requests ++ [config_command 0x05 0x00] := by
  have h := probe_started 2 hdev halloc hparse hstart
  refine ⟨by simpa using h.2.1, by simpa using h.2.2, ?_⟩
  intro d
  simpa using toggle_fixed_mode 2 (Or.inr rfl) d

/-- C9, run on a device that held `fn_lock = 1` before the attach. -/
theorem probe_always_off_witness :
    ((sample_device 1 (fun _ _ => 0)).kzalloc_ok = true ∧
      (sample_device 1 (fun _ _ => 0)).parse_ret = 0 ∧
      (sample_device 1 (fun _ _ => 0)).hw_start_ret = 0) ∧
    (tpcompactkbd_probe 2 (sample_device 1 (fun _ _ => 0))).2.drvdata.fn_lock = 0 ∧
    (tpcompactkbd_probe 2 (sample_device 1 (fun _ _ => 0))).2.requests
      = [config_command 0x01 0x03, config_command 0x05 0x00] :=
  ⟨⟨rfl, rfl, rfl⟩,
    (probe_always_off (sample_device 1 (fun _ _ => 0)) rfl rfl rfl).1,
    (probe_always_off (sample_device 1 (fun _ _ => 0)) rfl rfl rfl).2.1⟩

/-- C10: when the allocation, `hid_parse` and `hid_hw_start` succeed, then for every `fnmode`
and every transport (every combination of outcomes of the two transfers) `tpcompactkbd_probe`
returns 0, sends the init command `{0x18, 0x01, 0x03}` and after it one fn-lock command
`{0x18, 0x05, b}`, and leaves in `fn_lock` the value it leaves when every transfer succeeds. -/
theorem probe_command_failures_not_fatal (fnmode : Nat) (hdev : hid_device)
    (halloc : hdev.kzalloc_ok = true) (hparse : hdev.parse_ret = 0)
    (hstart : hdev.hw_start_ret = 0) :
    (tpcompactkbd_probe fnmode hdev).1 = 0 ∧
    (∃ b, (tpcompactkbd_probe fnmode hdev).2.requests
      = hdev.requests ++ [config_command 0x01 0x03, config_command 0x05 b]) ∧
    (tpcompactkbd_probe fnmode hdev).2.drvdata.fn_lock
      = (tpcompactkbd_probe fnmode { hdev with transport := fun _ _ => 0 }).2.drvdata.fn_lock := by
  have h := probe_started fnmode hdev halloc hparse hstart
  have h0 := probe_started fnmode { hdev with transport := fun _ _ => 0 } halloc hparse hstart
  exact ⟨h.1, ⟨_, h.2.2⟩, by rw [h.2.1, h0.2.1]⟩

/-- C10, run in normal mode on a device whose transport fails every transfer with `-5`. -/
theorem probe_command_failures_not_fatal_witness :
    ((sample_device 0 (fun _ _ => -5)).kzalloc_ok = true ∧
      (sample_device 0 (fun _ _ => -5)).parse_ret = 0 ∧
      (sample_device 0 (fun _ _ => -5)).hw_start_ret = 0) ∧
    (tpcompactkbd_probe 0 (sample_device 0 (fun _ _ => -5))).1 = 0 ∧
    (∃ b, (tpcompactkbd_probe 0 (sample_device 0 (fun _ _ => -5))).2.requests
      = (sample_device 0 (fun _ _ => -5)).requests
        ++ [config_command 0x01 0x03, config_command 0x05 b]) ∧
    (tpcompactkbd_probe 0 (sample_device 0 (fun _ _ => -5))).2.drvdata.fn_lock
      = (tpcompactkbd_probe 0
          { sample_device 0 (fun _ _ => -5) with transport := fun _ _ => 0 }).2.drvdata.fn_lock :=
  ⟨⟨rfl, rfl, rfl⟩,
    probe_command_failures_not_fatal 0 (sample_device 0 (fun _ _ => -5)) rfl rfl rfl⟩

/-! ## Failures, triggers and invariants -/

/-- C11: for every device state, `fnmode` and transport, `tpcompactkbd_toggle_fnlock` leaves in
`fn_lock` the value it leaves when the transfer succeeds (no rollback), attempts exactly one
transfer (no retry), logs `Fn-lock toggle failed` exactly when the transfer returns nonzero,
and every `tpcompactkbd_event` call, also one that triggered the toggle on a failing
transport, returns 0. -/
theorem toggle_no_rollback (K : input_codes) (fnmode : Nat) (hdev : hid_device)
    (usage : hid_usage) (value : Int) :
    (tpcompactkbd_toggle_fnlock fnmode hdev).drvdata.fn_lock
      = (tpcompactkbd_toggle_fnlock fnmode
          { hdev with transport := fun _ _ => 0 }).drvdata.fn_lock ∧
    (∃ b, (tpcompactkbd_toggle_fnlock fnmode hdev).requests
      = hdev.requests ++ [config_command 0x05 b] ∧
      (tpcompactkbd_toggle_fnlock fnmode hdev).messages
        = if hdev.transport hdev.requests.length (config_command 0x05 b) ≠ 0
          then hdev.messages ++ [(log_level.err, "Fn-lock toggle failed\n")]
          else hdev.messages) ∧
    (tpcompactkbd_event K fnmode hdev usage value).1 = 0 := by
  refine ⟨?_, ⟨_, toggle_requests fnmode hdev, toggle_messages fnmode hdev⟩, rfl⟩
  rw [toggle_fn_lock, toggle_fn_lock]

/-- C12: an event whose key code is not `KEY_FN_ESC`, or whose value is 0 (a key release),
makes `tpcompactkbd_event` return 0 and leave the whole device as it was: `fn_lock` is
unchanged, no command is sent and nothing is logged. -/
theorem event_other_keys_ignored (K : input_codes) (fnmode : Nat) (hdev : hid_device)
    (usage : hid_usage) (value : Int) (h : usage.code ≠ K.KEY_FN_ESC ∨ value = 0) :
    tpcompactkbd_event K fnmode hdev usage value = (0, hdev) := by
  rw [event_eq]
  have hn : ¬ (usage.code = K.KEY_FN_ESC ∧ value ≠ 0) := by
    rintro ⟨h1, h2⟩
    rcases h with h | h
    · exact h h1
    · exact h2 h
  rw [if_neg hn]

/-- C12, run on the release of `KEY_FN_ESC` (value 0) on a locked device. -/
theorem event_other_keys_ignored_witness :
    ((⟨0xff0000f0, 0x01, 0x1d1⟩ : hid_usage).code ≠ linux_input_codes.KEY_FN_ESC ∨
      (0 : Int) = 0) ∧
    tpcompactkbd_event linux_input_codes 0 (sample_device 1 (fun _ _ => 0))
        ⟨0xff0000f0, 0x01, 0x1d1⟩ 0
      = (0, sample_device 1 (fun _ _ => 0)) :=
  ⟨Or.inr rfl,
    event_other_keys_ignored linux_input_codes 0 (sample_device 1 (fun _ _ => 0))
      ⟨0xff0000f0, 0x01, 0x1d1⟩ 0 (Or.inr rfl)⟩

/-- C13: with `fnmode` fixed at 1, after a `tpcompactkbd_probe` that returned 0 and after any
run of `tpcompactkbd_event` calls that follows, `fn_lock` is 1 and the commands sent are the
init command followed only by commands `{0x18, 0x05, 0x01}`; with `fnmode` fixed at 2,
`fn_lock` is 0 and the fn-lock commands are all `{0x18, 0x05, 0x00}`. -/
theorem permanent_modes_hold (K : input_codes) (fnmode : Nat) (hdev : hid_device)
    (evs : List (hid_usage × Int)) (hmode : fnmode = 1 ∨ fnmode = 2)
    (hprobe : (tpcompactkbd_probe fnmode hdev).1 = 0) :
    (run_events K fnmode (tpcompactkbd_probe fnmode hdev).2 evs).drvdata.fn_lock
      = (if fnmode = 1 then 1 else 0) ∧
    ∃ n, (run_events K fnmode (tpcompactkbd_probe fnmode hdev).2 evs).requests
      = hdev.requests ++ config_command 0x01 0x03
        :: List.replicate (n + 1) (config_command 0x05 (if fnmode = 1 then 0x01 else 0x00)) := by
  obtain ⟨ha, hp, hs⟩ := probe_ret_zero fnmode hdev hprobe
  have h := probe_started fnmode hdev ha hp hs
  have hb : (if fnmode = 2 then (0 : Nat) else 1) = (if fnmode = 1 then 1 else 0) := by
    rcases hmode with rfl | rfl <;> simp
  rw [hb] at h
  obtain ⟨hl, n, hr⟩ := run_events_fixed_mode K fnmode hmode evs _ h.2.1
  refine ⟨hl, n, ?_⟩
  rw [hr, h.2.2, List.append_assoc, List.replicate_succ]
  rfl

/-- C13, run in mode 1: attach, then a `KEY_FN_ESC` key-down, its release, and another
key-down, on a transport that fails every transfer. -/
theorem permanent_modes_hold_witness :
    (((1 : Nat) = 1 ∨ (1 : Nat) = 2) ∧
      (tpcompactkbd_probe 1 (sample_device 0 (fun _ _ => -5))).1 = 0) ∧
    (run_events linux_input_codes 1 (tpcompactkbd_probe 1 (sample_device 0 (fun _ _ => -5))).2
        [(⟨0xff0000f0, 0x01, 0x1d1⟩, 1), (⟨0xff0000f0, 0x01, 0x1d1⟩, 0),
          (⟨0xff0000fa, 0x01, 0x1d1⟩, 1)]).drvdata.fn_lock
      = (if (1 : Nat) = 1 then 1 else 0) ∧
    ∃ n, (run_events linux_input_codes 1
        (tpcompactkbd_probe 1 (sample_device 0 (fun _ _ => -5))).2
        [(⟨0xff0000f0, 0x01, 0x1d1⟩, 1), (⟨0xff0000f0, 0x01, 0x1d1⟩, 0),
          (⟨0xff0000fa, 0x01, 0x1d1⟩, 1)]).requests
      = (sample_device 0 (fun _ _ => -5)).requests ++ config_command 0x01 0x03
        :: List.replicate (n + 1) (config_command 0x05 (if (1 : Nat) = 1 then 0x01 else 0x00)) :=
  ⟨⟨Or.inl rfl, rfl⟩,
    permanent_modes_hold linux_input_codes 1 (sample_device 0 (fun _ _ => -5))
      [(⟨0xff0000f0, 0x01, 0x1d1⟩, 1), (⟨0xff0000f0, 0x01, 0x1d1⟩, 0),
        (⟨0xff0000fa, 0x01, 0x1d1⟩, 1)] (Or.inl rfl) rfl⟩

/-- C14: when `tpcompactkbd_input_mapping` returns 1, the `EV_REP` bit of the input device's
`evbit` is set afterwards; and a second call that returns 1 on the same device leaves `evbit`
exactly as the first call left it. -/
theorem mapping_sets_auto_repeat (K : input_codes) (hi : hid_input) (usage usage2 : hid_usage)
    (h : (tpcompactkbd_input_mapping K hi usage).ret = 1)
    (h2 : (tpcompactkbd_input_mapping K (tpcompactkbd_input_mapping K hi usage).hi usage2).ret
      = 1) :
    (tpcompactkbd_input_mapping K hi usage).hi.input.evbit.testBit K.EV_REP = true ∧
    (tpcompactkbd_input_mapping K (tpcompactkbd_input_mapping K hi usage).hi usage2).hi.input.evbit
      = (tpcompactkbd_input_mapping K hi usage).hi.input.evbit := by
  have hp := input_mapping_ret_page K hi usage h
  have hp2 := input_mapping_ret_page K _ usage2 h2
  have e1 := input_mapping_evbit K hi usage
  rw [if_pos hp] at e1
  refine ⟨?_, ?_⟩
  · rw [e1]
    exact set_bit_testBit _ _
  · rw [input_mapping_evbit, if_pos hp2, e1, set_bit_idem]

/-- C14, run on the vendor usage `0x00f0` followed by the vendor usage `0x00fa`: auto-repeat
(bit `0x14`) is on after the first mapping and `evbit` is `0x100000` after both. -/
theorem mapping_sets_auto_repeat_witness :
    ((tpcompactkbd_input_mapping linux_input_codes ⟨⟨0⟩, []⟩ ⟨0xff0000f0, 0, 0⟩).ret = 1 ∧
      (tpcompactkbd_input_mapping linux_input_codes
        (tpcompactkbd_input_mapping linux_input_codes ⟨⟨0⟩, []⟩ ⟨0xff0000f0, 0, 0⟩).hi
        ⟨0xff0000fa, 0, 0⟩).ret = 1) ∧
    (tpcompactkbd_input_mapping linux_input_codes ⟨⟨0⟩, []⟩
      ⟨0xff0000f0, 0, 0⟩).hi.input.evbit.testBit linux_input_codes.EV_REP = true ∧
    (tpcompactkbd_input_mapping linux_input_codes
        (tpcompactkbd_input_mapping linux_input_codes ⟨⟨0⟩, []⟩ ⟨0xff0000f0, 0, 0⟩).hi
        ⟨0xff0000fa, 0, 0⟩).hi.input.evbit
      = (tpcompactkbd_input_mapping linux_input_codes ⟨⟨0⟩, []⟩
          ⟨0xff0000f0, 0, 0⟩).hi.input.evbit :=
  ⟨⟨by decide, by decide⟩,
    mapping_sets_auto_repeat linux_input_codes ⟨⟨0⟩, []⟩ ⟨0xff0000f0, 0, 0⟩ ⟨0xff0000fa, 0, 0⟩
      (by decide) (by decide)⟩

/-- C15: `tpcompactkbd_input_mapping` sets the `EV_REP` bit exactly when the usage page is the
consumer page or the vendor page, whether or not the id is in the table: on those pages `evbit`
becomes `set_bit(EV_REP, evbit)`, in which the bit is on, and on every other page `evbit` is
unchanged.  The consumer usage `0x9999` is declined (return value 0) and still turns the bit
on. -/
theorem auto_repeat_set_by_page (K : input_codes) (hi : hid_input) (usage : hid_usage)
    (t c : Nat) :
    (tpcompactkbd_input_mapping K hi usage).hi.input.evbit
      = (if usage.hid &&& 0xffff0000 = 0x000c0000 ∨ usage.hid &&& 0xffff0000 = 0xff000000
        then set_bit K.EV_REP hi.input.evbit else hi.input.evbit) ∧
    (set_bit K.EV_REP hi.input.evbit).testBit K.EV_REP = true ∧
    (tpcompactkbd_input_mapping K hi ⟨0x000c9999, t, c⟩).ret = 0 ∧
    (tpcompactkbd_input_mapping K hi ⟨0x000c9999, t, c⟩).hi.input.evbit.testBit K.EV_REP
      = true := by
  have hp : (0x000c9999 : Nat) &&& 0xffff0000 = 0x000c0000 := by decide
  have hid : (0x000c9999 : Nat) &&& 0xffff = 0x9999 := by decide
  refine ⟨input_mapping_evbit K hi usage, set_bit_testBit _ _,
    input_mapping_consumer_9999 K hi ⟨0x000c9999, t, c⟩ hp hid, ?_⟩
  rw [input_mapping_evbit, if_pos (Or.inl hp)]
  exact set_bit_testBit _ _

/-- C16: in every state reached by a `tpcompactkbd_probe` that returned 0 followed by any run
of `tpcompactkbd_event` calls, for every `fnmode` and every transport, `fn_lock` is 0 or 1, so
that negating it twice (two toggles in normal mode) gives it back. -/
theorem fn_lock_is_boolean (K : input_codes) (fnmode : Nat) (hdev : hid_device)
    (evs : List (hid_usage × Int)) (hprobe : (tpcompactkbd_probe fnmode hdev).1 = 0) :
    ((run_events K fnmode (tpcompactkbd_probe fnmode hdev).2 evs).drvdata.fn_lock = 0 ∨
      (run_events K fnmode (tpcompactkbd_probe fnmode hdev).2 evs).drvdata.fn_lock = 1) ∧
    (tpcompactkbd_toggle_fnlock 0 (tpcompactkbd_toggle_fnlock 0
        (run_events K fnmode (tpcompactkbd_probe fnmode hdev).2 evs))).drvdata.fn_lock
      = (run_events K fnmode (tpcompactkbd_probe fnmode hdev).2 evs).drvdata.fn_lock := by
  obtain ⟨ha, hp, hs⟩ := probe_ret_zero fnmode hdev hprobe
  have h := (probe_started fnmode hdev ha hp hs).2.1
  have h1 : (tpcompactkbd_probe fnmode hdev).2.drvdata.fn_lock ≤ 1 := by
    rw [h]
    split_ifs <;> omega
  have hle := run_events_fn_lock_le_one K fnmode evs _ h1
  have h01 : (run_events K fnmode (tpcompactkbd_probe fnmode hdev).2 evs).drvdata.fn_lock = 0 ∨
      (run_events K fnmode (tpcompactkbd_probe fnmode hdev).2 evs).drvdata.fn_lock = 1 := by
    omega
  refine ⟨h01, ?_⟩
  rw [toggle_fn_lock, toggle_fn_lock]
  rcases h01 with h0 | h0 <;> simp [h0]

/-- C16, run in normal mode: attach, then two `KEY_FN_ESC` key-downs, the second transfer
failing. -/
theorem fn_lock_is_boolean_witness :
    (tpcompactkbd_probe 0 (sample_device 0 (fun k _ => if k = 1 then -5 else 0))).1 = 0 ∧
    ((run_events linux_input_codes 0
        (tpcompactkbd_probe 0 (sample_device 0 (fun k _ => if k = 1 then -5 else 0))).2
        [(⟨0xff0000f0, 0x01, 0x1d1⟩, 1), (⟨0xff0000fa, 0x01, 0x1d1⟩, 1)]).drvdata.fn_lock = 0 ∨
      (run_events linux_input_codes 0
        (tpcompactkbd_probe 0 (sample_device 0 (fun k _ => if k = 1 then -5 else 0))).2
        [(⟨0xff0000f0, 0x01, 0x1d1⟩, 1), (⟨0xff0000fa, 0x01, 0x1d1⟩, 1)]).drvdata.fn_lock
        = 1) :=
  ⟨rfl,
    (fn_lock_is_boolean linux_input_codes 0
      (sample_device 0 (fun k _ => if k = 1 then -5 else 0))
      [(⟨0xff0000f0, 0x01, 0x1d1⟩, 1), (⟨0xff0000fa, 0x01, 0x1d1⟩, 1)] rfl).1⟩

/-- C17: for every `fnmode` other than 1 and 2 (so for every value from 3 on),
`tpcompactkbd_toggle_fnlock` does exactly what it does under `fnmode = 0`: the device it leaves,
with its `fn_lock`, its commands and its log, is the same for every starting device. -/
theorem out_of_range_mode_is_normal (fnmode : Nat) (hdev : hid_device) (h1 : fnmode ≠ 1)
    (h2 : fnmode ≠ 2) :
    tpcompactkbd_toggle_fnlock fnmode hdev = tpcompactkbd_toggle_fnlock 0 hdev := by
  unfold tpcompactkbd_toggle_fnlock
  simp only [h1, h2, if_false]
  rfl

/-- C17, run with `fnmode = 3` on a locked device: the toggle unlocks it and sends
`{0x18, 0x05, 0x00}`, as in normal mode. -/
theorem out_of_range_mode_is_normal_witness :
    ((3 : Nat) ≠ 1 ∧ (3 : Nat) ≠ 2) ∧
    tpcompactkbd_toggle_fnlock 3 (sample_device 1 (fun _ _ => 0))
      = tpcompactkbd_toggle_fnlock 0 (sample_device 1 (fun _ _ => 0)) ∧
    (tpcompactkbd_toggle_fnlock 3 (sample_device 1 (fun _ _ => 0))).drvdata.fn_lock = 0 ∧
    (tpcompactkbd_toggle_fnlock 3 (sample_device 1 (fun _ _ => 0))).requests
      = [config_command 0x05 0x00] :=
  ⟨⟨by decide, by decide⟩,
    out_of_range_mode_is_normal 3 (sample_device 1 (fun _ _ => 0)) (by decide) (by decide),
    rfl, rfl⟩

/-- C18: `tpcompactkbd_probe` returns nonzero exactly when the allocation fails, `hid_parse`
returns nonzero or `hid_hw_start` returns nonzero.  It then returns `-ENOMEM`, the value of
`hid_parse`, or the value of `hid_hw_start` respectively, and sends no command.  In every
other case it sends exactly two commands: the init command `{0x18, 0x01, 0x03}` first and a
fn-lock command `{0x18, 0x05, b}` second. -/
theorem probe_errors (fnmode : Nat) (hdev : hid_device) :
    ((tpcompactkbd_probe fnmode hdev).1 ≠ 0
      ↔ (hdev.kzalloc_ok = false ∨ hdev.parse_ret ≠ 0 ∨ hdev.hw_start_ret ≠ 0)) ∧
    (hdev.kzalloc_ok = false →
      (tpcompactkbd_probe fnmode hdev).1 = -ENOMEM ∧
      (tpcompactkbd_probe fnmode hdev).2.requests = hdev.requests) ∧
    (hdev.kzalloc_ok = true → hdev.parse_ret ≠ 0 →
      (tpcompactkbd_probe fnmode hdev).1 = hdev.parse_ret ∧
      (tpcompactkbd_probe fnmode hdev).2.requests = hdev.requests) ∧
    (hdev.kzalloc_ok = true → hdev.parse_ret = 0 → hdev.hw_start_ret ≠ 0 →
      (tpcompactkbd_probe fnmode hdev).1 = hdev.hw_start_ret ∧
      (tpcompactkbd_probe fnmode hdev).2.requests = hdev.requests) ∧
    ((tpcompactkbd_probe fnmode hdev).1 = 0 →
      ∃ b, (tpcompactkbd_probe fnmode hdev).2.requests
        = hdev.requests ++ [config_command 0x01 0x03, config_command 0x05 b]) := by
  have hA : hdev.kzalloc_ok = false →
      (tpcompactkbd_probe fnmode hdev).1 = -ENOMEM ∧
      (tpcompactkbd_probe fnmode hdev).2.requests = hdev.requests := by
    intro ha
    simp [tpcompactkbd_probe, ha, hid_err]
  have hP : hdev.kzalloc_ok = true → hdev.parse_ret ≠ 0 →
      (tpcompactkbd_probe fnmode hdev).1 = hdev.parse_ret ∧
      (tpcompactkbd_probe fnmode hdev).2.requests = hdev.requests := by
    intro ha hp
    simp [tpcompactkbd_probe, ha, hp, hid_err]
  have hS : hdev.kzalloc_ok = true → hdev.parse_ret = 0 → hdev.hw_start_ret ≠ 0 →
      (tpcompactkbd_probe fnmode hdev).1 = hdev.hw_start_ret ∧
      (tpcompactkbd_probe fnmode hdev).2.requests = hdev.requests := by
    intro ha hp hs
    simp [tpcompactkbd_probe, ha, hp, hs, hid_err]
  refine ⟨⟨?_, ?_⟩, hA, hP, hS, ?_⟩
  · intro hne
    by_contra hcon
    simp only [not_or, Bool.not_eq_false, not_not] at hcon
    exact hne (probe_started fnmode hdev hcon.1 hcon.2.1 hcon.2.2).1
  · intro hfail h0
    obtain ⟨ha, hp, hs⟩ := probe_ret_zero fnmode hdev h0
    rcases hfail with h | h | h
    · rw [ha] at h
      exact Bool.noConfusion h
    · exact h hp
    · exact h hs
  · intro h0
    obtain ⟨ha, hp, hs⟩ := probe_ret_zero fnmode hdev h0
    exact ⟨_, (probe_started fnmode hdev ha hp hs).2.2⟩

/-- C18, run on a device whose `hid_parse` returns `-22` (`-EINVAL`): no command is sent. -/
theorem probe_errors_witness :
    (tpcompactkbd_probe 0
      { sample_device 0 (fun _ _ => 0) with parse_ret := -22 }).1 = -22 ∧
    (tpcompactkbd_probe 0
      { sample_device 0 (fun _ _ => 0) with parse_ret := -22 }).2.requests = [] :=
  (probe_errors 0 { sample_device 0 (fun _ _ => 0) with parse_ret := -22 }).2.2.1 rfl
    (by decide)

end TpCompactKbd
